import Mathlib

/-!
Shallow embedding of the openllm secret/config resolution core
(crates/openllm-core: secrets, config, resolver and rpc modules), together
with theorems checking the natural-language specification against it.

Conventions used throughout:
* Rust `String` is Lean `String`; `to_lowercase`/`to_uppercase` are embedded
  as `String.toLower`/`String.toUpper` (identical on the ASCII keys the code
  manipulates).
* Fallible Rust functions returning `Result<T, E>` are embedded as
  `Except E T`; `Option<T>` as `Option T`.
* Process-global mutable state (the provider cache, the endpoint registry)
  and the outside world (environment variables, files on disk, the OS
  keychain daemon, remote RPC hosts) are passed explicitly as state /
  world records; stateful operations return a pair of result and new state.
* `RwLock` acquisition is modelled as always succeeding (lock poisoning is
  a crash-propagation mechanism, not program logic).
-/

namespace OpenLLM

/-- Single-quote character, used to reproduce the quoted names inside the
Rust error message strings. -/
def sq : String := String.singleton (Char.ofNat 39)

/-! String utilities.  The embeddings below work on the character list of
a `String` (instead of Lean's byte-position-based library functions) so
every definition evaluates by kernel reduction; on the ASCII data this
code manipulates they agree with the Rust originals named in each
comment. -/

/-- Embeds Rust `str::to_lowercase`. -/
def toLowerStr (s : String) : String := String.mk (s.data.map Char.toLower)

/-- Embeds Rust `str::to_uppercase`. -/
def toUpperStr (s : String) : String := String.mk (s.data.map Char.toUpper)

/-- Case-insensitive string comparison; embeds Rust
`str::eq_ignore_ascii_case` (the names compared are ASCII). -/
def eqIgnoreAsciiCase (a b : String) : Bool :=
  toLowerStr a == toLowerStr b

/-- Embeds Rust `str::starts_with`. -/
def startsWithStr (s p : String) : Bool := p.data.isPrefixOf s.data

/-- Drop the first `n` characters; used to embed
`str::strip_prefix("rpc:")` (an ASCII prefix of 4 characters). -/
def dropStr (s : String) (n : Nat) : String := String.mk (s.data.drop n)

/-- Embeds Rust `str::trim`. -/
def trimStr (s : String) : String :=
  String.mk (((s.data.dropWhile Char.isWhitespace).reverse.dropWhile
    Char.isWhitespace).reverse)

/-- Embeds Rust `str::replace("-", "_")` (a single-character pattern). -/
def replaceDashStr (s : String) : String :=
  String.mk (s.data.map (fun c => if c == '-' then '_' else c))

/-- Helper for `splitOnceChar`: split a character list at the first
occurrence of `c`. -/
def splitOnceCharAux (c : Char) : List Char → Option (List Char × List Char)
  | [] => none
  | d :: rest =>
    if d == c then some ([], rest)
    else
      match splitOnceCharAux c rest with
      | some (l, r) => some (d :: l, r)
      | none => none

/-- Embeds Rust `str::split_once(c)`. -/
def splitOnceChar (c : Char) (s : String) : Option (String × String) :=
  (splitOnceCharAux c s.data).map (fun p => (String.mk p.1, String.mk p.2))

/-! ## Secret store abstraction

`StoreM` is the behavioural abstraction of a `dyn SecretStore` trait
object: its reported name, the result of `is_available()`, and the result
of `get(key)` for each key.  This is what `ChainSecretStore` and the
resolver's legacy fallback loop consume. -/

/-- Behavioural model of a `dyn SecretStore` backend. -/
structure StoreM where
  nm : String
  avail : Bool
  vals : String → Option String

/-- Embeds `ChainSecretStore::get` (secrets/chain_store.rs lines 96-106):
walk the stores in order, skip any store whose `is_available()` is false,
and return the first `Some` value produced by `get`. -/
def chainGet (stores : List StoreM) (key : String) : Option String :=
  match stores with
  | [] => none
  | s :: rest =>
    if s.avail then
      match s.vals key with
      | some v => some v
      | none => chainGet rest key
    else
      chainGet rest key

/-- Spec-side description of chain reads: the first store in order that is
available and holds the key. -/
def firstHolding (stores : List StoreM) (key : String) : Option StoreM :=
  stores.find? (fun s => s.avail && (s.vals key).isSome)

theorem chainGet_eq_firstHolding (stores : List StoreM) (key : String) :
    chainGet stores key = (firstHolding stores key).bind (fun s => s.vals key) := by
  induction stores with
  | nil => rfl
  | cons s rest ih =>
    simp only [chainGet, firstHolding, List.find?]
    by_cases ha : s.avail
    · cases hv : s.vals key with
      | some v => simp [ha, hv]
      | none => simpa [ha, hv, firstHolding] using ih
    · simp only [Bool.false_and, ha]
      simpa [firstHolding] using ih

/-- C6: a chain read returns the value held by the first member store (in
chain order) that is both available and holds the key, and `none` when no
such store exists; in particular with members `[A, B]` both holding the
key, A's value wins, and with only B holding it, B's value is returned. -/
theorem chain_priority_c6 :
    (∀ (stores : List StoreM) (key : String),
      chainGet stores key = (firstHolding stores key).bind (fun s => s.vals key)) ∧
    (∀ (stores : List StoreM) (key : String),
      firstHolding stores key = none → chainGet stores key = none) ∧
    (∀ (A B : StoreM) (k a b : String),
      A.avail = true → A.vals k = some a → B.vals k = some b → a ≠ b →
      chainGet [A, B] k = some a) ∧
    (∀ (A B : StoreM) (k b : String),
      B.avail = true → A.vals k = none → B.vals k = some b →
      chainGet [A, B] k = some b) := by
  refine ⟨chainGet_eq_firstHolding, ?_, ?_, ?_⟩
  · intro stores key h
    rw [chainGet_eq_firstHolding, h]
    rfl
  · intro A B k a b hA hAv _ _
    simp [chainGet, hA, hAv]
  · intro A B k b hB hAv hBv
    by_cases hA : A.avail <;> simp [chainGet, hA, hB, hAv, hBv]

/-- Witness for C6 at concrete stores. -/
theorem chain_priority_c6_witness :
    chainGet [⟨"memA", true, fun k => if k == "k" then some "1" else none⟩,
              ⟨"memB", true, fun k => if k == "k" then some "2" else none⟩] "k" = some "1" := by
  exact chain_priority_c6.2.2.1
    ⟨"memA", true, fun k => if k == "k" then some "1" else none⟩
    ⟨"memB", true, fun k => if k == "k" then some "2" else none⟩
    "k" "1" "2" rfl rfl rfl (by decide)

/-! ## JSON values and the RPC wire client (rpc/client.rs)

`Json` models `serde_json::Value`.  Objects are association lists with
distinct keys; `serde_json`'s map is a `BTreeMap`, whose iteration order
(key-sorted) is irrelevant to the claims, so no ordering is imposed here.
Numbers are modelled as integers (`as_i64`); the numeric payloads the
client inspects are JSON-RPC error codes. -/

/-- Model of `serde_json::Value`. -/
inductive Json where
  | null : Json
  | bool : Bool → Json
  | num : Int → Json
  | str : String → Json
  | arr : List Json → Json
  | obj : List (String × Json) → Json

/-- Field lookup on a JSON value; embeds `serde_json::Value::get(key)`,
which returns the entry for `key` when the value is an object and `None`
otherwise. -/
def jsonGet (j : Json) (k : String) : Option Json :=
  match j with
  | .obj fields => (fields.find? (fun kv => kv.1 == k)).map (fun kv => kv.2)
  | _ => none

/-- Insert-or-replace on a JSON object's fields; embeds
`serde_json::Map::insert` (replaces the value when the key is present,
adds the entry otherwise). -/
def objInsert (fields : List (String × Json)) (k : String) (v : Json) :
    List (String × Json) :=
  if fields.any (fun kv => kv.1 == k) then
    fields.map (fun kv => if kv.1 == k then (k, v) else kv)
  else
    fields ++ [(k, v)]

/-- Embeds the params-building step shared verbatim by `RpcClient::call`
(rpc/client.rs lines 79-92) and `RpcClient::call_async` (lines 288-300):
an object gets `auth` merged in, `null` becomes `{auth}`, and any other
value is wrapped as `{auth, data}`. -/
def buildParams (authToken : String) (params : Json) : Json :=
  match params with
  | .obj fields => .obj (objInsert fields "auth" (.str authToken))
  | .null => .obj [("auth", .str authToken)]
  | v => .obj [("auth", .str authToken), ("data", v)]

/-- Embeds the JSON-RPC 2.0 request envelope built by `call`/`call_async`
(rpc/client.rs lines 94-99 and 302-307). -/
def buildRequest (authToken : String) (id : Nat) (method : String)
    (params : Json) : Json :=
  .obj [("jsonrpc", .str "2.0"), ("id", .num id), ("method", .str method),
        ("params", buildParams authToken params)]

/-- C4: for every `call`/`call_async` invocation, the envelope's `params`
field is: the params object with an `auth` field merged in when params
serializes to an object; `\x7b"auth": token\x7d` when it serializes to
null; and `\x7b"auth": token, "data": v\x7d` for any other value `v`.
Both call paths build the envelope through `buildParams`. -/
theorem call_params_auth_c4 :
    (∀ (token : String) (fields : List (String × Json)),
      buildParams token (.obj fields) =
        .obj (objInsert fields "auth" (.str token))) ∧
    (∀ (token : String),
      buildParams token .null = .obj [("auth", .str token)]) ∧
    (∀ (token : String) (p : Json),
      (∀ fields, p ≠ .obj fields) → p ≠ .null →
      buildParams token p = .obj [("auth", .str token), ("data", p)]) ∧
    (∀ (token method : String) (id : Nat) (p : Json),
      jsonGet (buildRequest token id method p) "params" =
        some (buildParams token p)) := by
  refine ⟨fun _ _ => rfl, fun _ => rfl, ?_, ?_⟩
  · intro token p hobj hnull
    cases p with
    | obj fields => exact absurd rfl (hobj fields)
    | null => exact absurd rfl hnull
    | bool b => rfl
    | num n => rfl
    | str s => rfl
    | arr l => rfl
  · intro token method id p
    simp [buildRequest, jsonGet, List.find?]

/-- Witness for C4: a string params value is wrapped under `data`. -/
theorem call_params_auth_c4_witness :
    buildParams "tok" (.str "x") =
      .obj [("auth", .str "tok"), ("data", .str "x")] := by
  exact call_params_auth_c4.2.2.1 "tok" (.str "x")
    (fun fields h => Json.noConfusion h) (fun h => Json.noConfusion h)

/-- Errors of the RPC wire client; embeds `RpcError` (rpc/client.rs
lines 27-49).  Error payloads carried by `Io`/`Json` variants are kept as
their display strings. -/
inductive RpcErr where
  | connectionFailed : String → RpcErr
  | io : String → RpcErr
  | json : String → RpcErr
  | rpcError : Int → String → RpcErr
  | invalidResponse : String → RpcErr
  | timeout : RpcErr
  | notConnected : RpcErr

/-- The numeric code extracted from a JSON-RPC `error` object:
`error.get("code").and_then(as_i64).unwrap_or(-1)`. -/
def errCode (err : Json) : Int :=
  match jsonGet err "code" with
  | some (.num c) => c
  | _ => -1

/-- The message extracted from a JSON-RPC `error` object:
`error.get("message").and_then(as_str).unwrap_or("Unknown error")`. -/
def errMsg (err : Json) : String :=
  match jsonGet err "message" with
  | some (.str m) => m
  | _ => "Unknown error"

/-- Embeds `RpcClient::parse_response` (rpc/client.rs lines 231-249).
The deserialization of the `result` field into the expected Rust type `R`
is abstracted as the `decode` argument (failure gives the `Json` error
variant, as `serde_json::Error` converts into `RpcError::Json`). -/
def parseResponse {R : Type} (decode : Json → Except String R)
    (response : Json) : Except RpcErr R :=
  match jsonGet response "error" with
  | some err => .error (.rpcError (errCode err) (errMsg err))
  | none =>
    match jsonGet response "result" with
    | none => .error (.invalidResponse "Missing result field")
    | some r =>
      match decode r with
      | .ok v => .ok v
      | .error e => .error (.json e)

/-- C8: a response carrying an `error` field fails with `RpcError` holding
that error's numeric code and message; with no `error` field and no
`result` field the call fails with `InvalidResponse`; otherwise the
`result` field is decoded as the expected type, failing when it has the
wrong shape. -/
theorem parse_response_c8 :
    (∀ {R : Type} (decode : Json → Except String R) (response err : Json)
      (code : Int) (message : String),
      jsonGet response "error" = some err →
      jsonGet err "code" = some (.num code) →
      jsonGet err "message" = some (.str message) →
      parseResponse decode response = .error (.rpcError code message)) ∧
    (∀ {R : Type} (decode : Json → Except String R) (response : Json),
      jsonGet response "error" = none →
      jsonGet response "result" = none →
      parseResponse decode response =
        .error (.invalidResponse "Missing result field")) ∧
    (∀ {R : Type} (decode : Json → Except String R) (response r : Json),
      jsonGet response "error" = none →
      jsonGet response "result" = some r →
      parseResponse decode response =
        (match decode r with
         | .ok v => .ok v
         | .error e => .error (.json e))) := by
  refine ⟨?_, ?_, ?_⟩
  · intro R decode response err code message herr hcode hmsg
    simp [parseResponse, herr, errCode, errMsg, hcode, hmsg]
  · intro R decode response herr hres
    simp [parseResponse, herr, hres]
  · intro R decode response r herr hres
    simp [parseResponse, herr, hres]

/-- Witness for C8 at a concrete error response. -/
theorem parse_response_c8_witness :
    parseResponse (fun j => (.ok j : Except String Json))
      (.obj [("jsonrpc", .str "2.0"), ("id", .num 1),
             ("error", .obj [("code", .num (-32600)), ("message", .str "bad")])]) =
      .error (.rpcError (-32600) "bad") := by
  exact parse_response_c8.1 (fun j => .ok j)
    (.obj [("jsonrpc", .str "2.0"), ("id", .num 1),
           ("error", .obj [("code", .num (-32600)), ("message", .str "bad")])])
    (.obj [("code", .num (-32600)), ("message", .str "bad")])
    (-32600) "bad" rfl rfl rfl

/-! ## Environment secret store (secrets/env_store.rs) -/

/-- The provider-name-to-environment-variable mapping table; embeds
`ENV_VAR_MAP` (secrets/env_store.rs lines 11-22). -/
def envVarMap : String → Option (List String)
  | "openai" => some ["OPENAI_API_KEY"]
  | "anthropic" => some ["ANTHROPIC_API_KEY"]
  | "gemini" => some ["GEMINI_API_KEY", "GOOGLE_API_KEY"]
  | "google" => some ["GEMINI_API_KEY", "GOOGLE_API_KEY"]
  | "mistral" => some ["MISTRAL_API_KEY"]
  | "azure" => some ["AZURE_API_KEY", "AZURE_OPENAI_API_KEY"]
  | "openrouter" => some ["OPENROUTER_API_KEY"]
  | "ollama" => some []
  | _ => none

/-- One lookup step of `EnvSecretStore::get`: `env::var(v)` succeeding with
a non-empty value.  The process environment is the function `env`. -/
def envVarNonEmpty (env : String → Option String) (v : String) : Option String :=
  match env v with
  | some s => if s == "" then none else some s
  | none => none

/-- Embeds `EnvSecretStore::get` (secrets/env_store.rs lines 73-102):
try the key as an exact variable name, then the mapping table for the
lowercased key (in listed order), then the synthesized
`UPPER(key)_API_KEY`; each step only accepts a non-empty value. -/
def envGet (env : String → Option String) (key : String) : Option String :=
  match envVarNonEmpty env key with
  | some v => some v
  | none =>
    let mapped :=
      match envVarMap (toLowerStr key) with
      | some vars => vars.findSome? (envVarNonEmpty env)
      | none => none
    match mapped with
    | some v => some v
    | none => envVarNonEmpty env (toUpperStr key ++ "_API_KEY")

/-- Spec-side candidate list for a lookup key: the exact variable, the
mapping-table variables for the lowercased key, then the synthesized one. -/
def envCandidates (key : String) : List String :=
  key :: ((envVarMap (toLowerStr key)).getD [] ++ [toUpperStr key ++ "_API_KEY"])

theorem findSome?_append {α β : Type} (f : α → Option β) (l₁ l₂ : List α) :
    (l₁ ++ l₂).findSome? f =
      match l₁.findSome? f with
      | some b => some b
      | none => l₂.findSome? f := by
  induction l₁ with
  | nil => rfl
  | cons a l ih =>
    simp only [List.cons_append, List.findSome?]
    cases f a <;> simp [ih]

theorem envGet_eq_findSome (env : String → Option String) (key : String) :
    envGet env key = (envCandidates key).findSome? (envVarNonEmpty env) := by
  simp only [envGet, envCandidates, List.findSome?]
  cases envVarNonEmpty env key with
  | some v => rfl
  | none =>
    cases h : envVarMap (toLowerStr key) with
    | some vars =>
      simp only [h, Option.getD, findSome?_append]
      cases vars.findSome? (envVarNonEmpty env) with
      | some v => simp [List.findSome?]
      | none =>
        simp only [List.findSome?]
        cases envVarNonEmpty env (toUpperStr key ++ "_API_KEY") <;> rfl
    | none =>
      simp only [h, Option.getD, List.nil_append, List.findSome?]
      cases envVarNonEmpty env (toUpperStr key ++ "_API_KEY") <;> rfl

/-! ## Secret resolver (resolver/secret_resolver.rs)

The outside world visible to `UnifiedSecretResolver` is a `SecretWorld`:
the process environment, the `.env` file (if readable), the global RPC
endpoint registry, and the OS keychain. RPC and keychain write calls are
modelled by their outcomes in that world. -/

/-- A resolved secret; embeds `ResolvedSecret`. -/
structure ResolvedSecret where
  value : String
  source : String
  sourceDetail : String
deriving DecidableEq, Repr

/-- Embeds `SecretStoreError` (secrets/traits.rs lines 31-47). -/
inductive SecretStoreErr where
  | readOnly : SecretStoreErr
  | notFound : String → SecretStoreErr
  | notAvailable : String → SecretStoreErr
  | io : String → SecretStoreErr
  | other : String → SecretStoreErr
deriving DecidableEq, Repr

/-- The display string of a `SecretStoreError`, per its thiserror
attributes. -/
def SecretStoreErr.toMessage : SecretStoreErr → String
  | .readOnly => "Store is read-only"
  | .notFound k => "Secret not found: " ++ k
  | .notAvailable s => "Store not available: " ++ s
  | .io s => "IO error: " ++ s
  | .other s => "Store error: " ++ s

/-- Behavioural model of one registered RPC endpoint as seen through
`RpcSecretStore`: reachability, the observed outcome of `secrets/get`
per key, and the outcome of `secrets/store` per key/value (already
rendered to its display string, as the resolver does with
`map_err(|e| e.to_string())`). -/
structure RpcEndpointM where
  reachable : Bool
  secretsGet : String → Option String
  storeOutcome : String → String → Except String Unit

/-- The world a `UnifiedSecretResolver` operates in. -/
structure SecretWorld where
  env : String → Option String
  dotenvLines : Option (List String)
  registry : String → Option RpcEndpointM
  keychainAvail : Bool
  keychainGet : String → Option String
  keychainStoreOutcome : String → String → Except SecretStoreErr Unit

/-- Embeds `SecretsStore` (the per-resolver primary store preference). -/
inductive SecretsStoreChoice where
  | vsCode : SecretsStoreChoice
  | keychain : SecretsStoreChoice
deriving DecidableEq, Repr

/-- Embeds the state of `UnifiedSecretResolver` (fields `sources`,
`rpc_endpoints`, `secrets_store`, `check_environment`, `check_dotenv`). -/
structure SecretResolverM where
  sources : List StoreM
  rpcEndpoints : List String
  secretsStore : SecretsStoreChoice
  checkEnvironment : Bool
  checkDotenv : Bool

/-- Strip all leading and trailing occurrences of `c`; embeds Rust
`str::trim_matches(c)`. -/
def stripMatches (c : Char) (s : String) : String :=
  String.mk (((s.toList.dropWhile (fun d => d == c)).reverse.dropWhile
    (fun d => d == c)).reverse)

/-- One line of the `.env` scan inside `try_dotenv_file`
(resolver/secret_resolver.rs lines 335-348): skip blank and `#` lines,
split at `=`, require the trimmed key to equal the searched variable name,
strip surrounding double then single quotes, accept non-empty values. -/
def tryDotenvLine (envVarName : String) (line : String) : Option String :=
  let line := trimStr line
  if startsWithStr line "#" || line == "" then none
  else
    match splitOnceChar (Char.ofNat 61) line with
    | some (k, v) =>
      if trimStr k == envVarName then
        let value := stripMatches (Char.ofNat 39) (stripMatches '"' (trimStr v))
        if value == "" then none else some value
      else none
    | none => none

/-- Embeds `UnifiedSecretResolver::try_dotenv_file` (lines 330-351): the
searched variable is `UPPER(key)` with hyphens replaced by underscores,
suffixed `_API_KEY`; the file's lines are scanned in order. -/
def tryDotenvFile (w : SecretWorld) (key : String) : Option String :=
  let envVarName := (replaceDashStr (toUpperStr key)) ++ "_API_KEY"
  match w.dotenvLines with
  | some lines => lines.findSome? (tryDotenvLine envVarName)
  | none => none

/-- Stage 1 of `resolve` (lines 154-164): environment variables, when
enabled. -/
def envResolveStage (r : SecretResolverM) (w : SecretWorld) (key : String) :
    Option ResolvedSecret :=
  if r.checkEnvironment then
    match envGet w.env key with
    | some v =>
      some ⟨v, "environment", "Environment variable $" ++ (toUpperStr key ++ "_API_KEY")⟩
    | none => none
  else none

/-- Stage 2 of `resolve` (lines 167-176): the `.env` file, when enabled. -/
def dotenvResolveStage (r : SecretResolverM) (w : SecretWorld) (key : String) :
    Option ResolvedSecret :=
  if r.checkDotenv then
    match tryDotenvFile w key with
    | some v =>
      some ⟨v, "dotenv", ".env file (" ++ (toUpperStr key ++ "_API_KEY") ++ ")"⟩
    | none => none
  else none

/-- The VS Code arm of stage 3 of `resolve` (lines 180-194): registered
endpoints are probed in order through `RpcSecretStore::get`. -/
def rpcResolveLoop (w : SecretWorld) (names : List String) (key : String) :
    Option ResolvedSecret :=
  match names with
  | [] => none
  | n :: rest =>
    match w.registry n with
    | some em =>
      match em.secretsGet key with
      | some v => some ⟨v, "rpc:" ++ n, n ++ " SecretStorage"⟩
      | none => rpcResolveLoop w rest key
    | none => rpcResolveLoop w rest key

/-- Stage 3 of `resolve` (lines 179-208): only the preferred primary store
is probed. -/
def primaryResolveStage (r : SecretResolverM) (w : SecretWorld) (key : String) :
    Option ResolvedSecret :=
  match r.secretsStore with
  | .vsCode => rpcResolveLoop w r.rpcEndpoints key
  | .keychain =>
    if w.keychainAvail then
      match w.keychainGet key with
      | some v => some ⟨v, "keychain", "System Keychain"⟩
      | none => none
    else none

/-- Stage 4 of `resolve` (lines 211-223): remaining registered legacy
sources, skipping stores named "environment" or "keychain". -/
def fallbackResolveStage (sources : List StoreM) (key : String) :
    Option ResolvedSecret :=
  match sources with
  | [] => none
  | s :: rest =>
    if s.nm == "environment" || s.nm == "keychain" then
      fallbackResolveStage rest key
    else
      match s.vals key with
      | some v => some ⟨v, s.nm, s.nm⟩
      | none => fallbackResolveStage rest key

/-- Embeds `UnifiedSecretResolver::resolve` (lines 152-226): the four
stages in order, short-circuiting on the first hit. -/
def resolveSecret (r : SecretResolverM) (w : SecretWorld) (key : String) :
    Option ResolvedSecret :=
  match envResolveStage r w key with
  | some res => some res
  | none =>
    match dotenvResolveStage r w key with
    | some res => some res
    | none =>
      match primaryResolveStage r w key with
      | some res => some res
      | none => fallbackResolveStage r.sources key

/-- The resolver built by `UnifiedSecretResolver::new` (lines 65-76) in a
given world: legacy sources are the environment store (named "env",
always available) and the keychain store. -/
def defaultSecretResolver (w : SecretWorld) : SecretResolverM :=
  { sources := [⟨"env", true, envGet w.env⟩, ⟨"keychain", w.keychainAvail, w.keychainGet⟩],
    rpcEndpoints := ["vscode"],
    secretsStore := .keychain,
    checkEnvironment := true,
    checkDotenv := false }

/-- The world of the C5 scenario: only `OPENAI_API_KEY=sk-x` is set, the
`.env` file is absent, no RPC endpoint is registered, and the keychain is
unavailable. -/
def skxWorld : SecretWorld :=
  { env := fun v => if v == "OPENAI_API_KEY" then some "sk-x" else none,
    dotenvLines := none,
    registry := fun _ => none,
    keychainAvail := false,
    keychainGet := fun _ => none,
    keychainStoreOutcome := fun _ _ => .error .readOnly }

/-- C5: `EnvSecretStore::get` returns the first non-empty value among the
exact variable, the mapping-table variables for the lowercased key (in
listed order) and the synthesized `UPPER(key)_API_KEY`, and `none` when
all are unset or empty; and with only `OPENAI_API_KEY=sk-x` set and
environment checking enabled, resolving "openai", "OpenAI" and
"OPENAI_API_KEY" each yields sk-x with source "environment". -/
theorem env_resolution_c5 :
    (∀ (env : String → Option String) (key : String),
      envGet env key = (envCandidates key).findSome? (envVarNonEmpty env)) ∧
    (∀ (env : String → Option String) (key : String),
      (∀ c ∈ envCandidates key, envVarNonEmpty env c = none) →
      envGet env key = none) ∧
    (∀ (r : SecretResolverM) (w : SecretWorld) (key v : String),
      r.checkEnvironment = true → envGet w.env key = some v →
      resolveSecret r w key =
        some ⟨v, "environment", "Environment variable $" ++ (toUpperStr key ++ "_API_KEY")⟩) ∧
    ((resolveSecret (defaultSecretResolver skxWorld) skxWorld "openai").map
        (fun s => (s.value, s.source)) = some ("sk-x", "environment") ∧
     (resolveSecret (defaultSecretResolver skxWorld) skxWorld "OpenAI").map
        (fun s => (s.value, s.source)) = some ("sk-x", "environment") ∧
     (resolveSecret (defaultSecretResolver skxWorld) skxWorld "OPENAI_API_KEY").map
        (fun s => (s.value, s.source)) = some ("sk-x", "environment")) := by
  refine ⟨envGet_eq_findSome, ?_, ?_, by decide, by decide, by decide⟩
  · intro env key h
    rw [envGet_eq_findSome]
    exact List.findSome?_eq_none_iff.mpr h
  · intro r w key v hc henv
    simp [resolveSecret, envResolveStage, hc, henv]

/-- Witness for C5: the env-hit short-circuit applied at the concrete
scenario world. -/
theorem env_resolution_c5_witness :
    resolveSecret (defaultSecretResolver skxWorld) skxWorld "openai" =
      some ⟨"sk-x", "environment", "Environment variable $OPENAI_API_KEY"⟩ := by
  exact env_resolution_c5.2.2.1 (defaultSecretResolver skxWorld) skxWorld
    "openai" "sk-x" rfl (by decide)

/-! ## Secret write routing (resolver/secret_resolver.rs lines 353-459) -/

/-- Embeds `SecretWriteDestination` (`Rpc(name)`, `Keychain`, `None`). -/
inductive SecretWriteDest where
  | rpc : String → SecretWriteDest
  | keychain : SecretWriteDest
  | noStore : SecretWriteDest
deriving DecidableEq, Repr

/-- Embeds `UnifiedSecretResolver::get_write_destination` (lines 358-381):
VS Code preference picks the first rpc endpoint name present in the global
registry; keychain preference picks the keychain when available; otherwise
no store. -/
def getSecretWriteDestination (r : SecretResolverM) (w : SecretWorld) :
    SecretWriteDest :=
  match r.secretsStore with
  | .vsCode =>
    match r.rpcEndpoints.find? (fun n => (w.registry n).isSome) with
    | some n => .rpc n
    | none => .noStore
  | .keychain => if w.keychainAvail then .keychain else .noStore

/-- The non-dispatch part of `UnifiedSecretResolver::store` (lines
420-458): the "keychain", "rpc:<name>" and unknown-store arms.  In the
source these arms live in `store` itself; `store`'s "auto" and "vscode"
arms re-enter `store` with a destination that is never "auto" or
"vscode" again, so the recursion is unfolded into this helper. -/
def storeRouted (w : SecretWorld) (key value dest : String) :
    Except String String :=
  if dest == "keychain" then
    if w.keychainAvail then
      match w.keychainStoreOutcome key value with
      | .ok _ => .ok "System Keychain"
      | .error e => .error e.toMessage
    else .error "System keychain not available"
  else if startsWithStr dest "rpc:" then
    let n := dropStr dest 4
    match w.registry n with
    | some em =>
      if em.reachable then
        match em.storeOutcome key value with
        | .ok _ => .ok (n ++ " SecretStorage")
        | .error e => .error e
      else .error ("RPC endpoint " ++ sq ++ n ++ sq ++ " not reachable")
    | none => .error ("RPC endpoint " ++ sq ++ n ++ sq ++ " not registered")
  else .error ("Unknown store: " ++ dest)

/-- Embeds `UnifiedSecretResolver::store` (lines 393-459). -/
def storeSecret (r : SecretResolverM) (w : SecretWorld)
    (key value dest : String) : Except String String :=
  if dest == "auto" then
    match getSecretWriteDestination r w with
    | .rpc n => storeRouted w key value ("rpc:" ++ n)
    | .keychain => storeRouted w key value "keychain"
    | .noStore =>
      .error "No secret store available (no RPC endpoint and keychain unavailable)"
  else if dest == "vscode" then storeRouted w key value "rpc:vscode"
  else storeRouted w key value dest

theorem rpc_prefixed_beq_auto (n : String) :
    (("rpc:" ++ n) == "auto") = false := by
  apply beq_eq_false_iff_ne.mpr
  intro h
  have h2 : ("rpc:" ++ n).data = "auto".data := congrArg String.data h
  rw [String.data_append] at h2
  have h3 : (Char.ofNat 114) :: (Char.ofNat 112) :: (Char.ofNat 99) ::
      (Char.ofNat 58) :: n.data = "auto".data := h2
  injection h3 with h4 h5
  exact absurd h4 (by decide)

theorem rpc_prefixed_beq_vscode (n : String) :
    (("rpc:" ++ n) == "vscode") = false := by
  apply beq_eq_false_iff_ne.mpr
  intro h
  have h2 : ("rpc:" ++ n).data = "vscode".data := congrArg String.data h
  rw [String.data_append] at h2
  have h3 : (Char.ofNat 114) :: (Char.ofNat 112) :: (Char.ofNat 99) ::
      (Char.ofNat 58) :: n.data = "vscode".data := h2
  injection h3 with h4 h5
  exact absurd h4 (by decide)

theorem storeSecret_rpc_prefixed (r : SecretResolverM) (w : SecretWorld)
    (key value n : String) :
    storeSecret r w key value ("rpc:" ++ n) = storeRouted w key value ("rpc:" ++ n) := by
  simp [storeSecret, rpc_prefixed_beq_auto, rpc_prefixed_beq_vscode]

/-- C3: with destination "auto", `store` routes to the first registered
RPC endpoint under the VS Code preference, to the OS credential store
under the keychain preference when it is available, and fails with the
no-store-available error when the preferred store does not exist;
"vscode" is treated exactly as "rpc:vscode"; and a destination that is
none of "auto", "vscode", "keychain" or "rpc:<name>" fails immediately
with the unknown-store error. -/
theorem store_auto_routing_c3 :
    (∀ (r : SecretResolverM) (w : SecretWorld) (key value n : String),
      r.secretsStore = .vsCode →
      r.rpcEndpoints.find? (fun m => (w.registry m).isSome) = some n →
      storeSecret r w key value "auto" = storeSecret r w key value ("rpc:" ++ n)) ∧
    (∀ (r : SecretResolverM) (w : SecretWorld) (key value : String),
      r.secretsStore = .keychain → w.keychainAvail = true →
      storeSecret r w key value "auto" = storeSecret r w key value "keychain") ∧
    (∀ (r : SecretResolverM) (w : SecretWorld) (key value : String),
      (r.secretsStore = .vsCode ∧
        r.rpcEndpoints.find? (fun m => (w.registry m).isSome) = none) ∨
      (r.secretsStore = .keychain ∧ w.keychainAvail = false) →
      storeSecret r w key value "auto" =
        .error "No secret store available (no RPC endpoint and keychain unavailable)") ∧
    (∀ (r : SecretResolverM) (w : SecretWorld) (key value : String),
      storeSecret r w key value "vscode" = storeSecret r w key value "rpc:vscode") ∧
    (∀ (r : SecretResolverM) (w : SecretWorld) (key value dest : String),
      dest ≠ "auto" → dest ≠ "vscode" → dest ≠ "keychain" →
      startsWithStr dest "rpc:" = false →
      storeSecret r w key value dest = .error ("Unknown store: " ++ dest)) := by
  refine ⟨?_, ?_, ?_, ?_, ?_⟩
  · intro r w key value n hs hf
    rw [storeSecret_rpc_prefixed]
    simp [storeSecret, getSecretWriteDestination, hs, hf]
  · intro r w key value hs hk
    simp [storeSecret, getSecretWriteDestination, hs, hk]
  · intro r w key value hcase
    rcases hcase with ⟨hs, hf⟩ | ⟨hs, hk⟩
    · simp [storeSecret, getSecretWriteDestination, hs, hf]
    · simp [storeSecret, getSecretWriteDestination, hs, hk]
  · intro r w key value
    rfl
  · intro r w key value dest h1 h2 h3 h4
    simp [storeSecret, storeRouted, beq_eq_false_iff_ne.mpr h1,
      beq_eq_false_iff_ne.mpr h2, beq_eq_false_iff_ne.mpr h3, h4]

/-- Witness for C3: keychain preference with an unavailable keychain
fails with the no-store-available error, and a bogus destination fails
with the unknown-store error. -/
theorem store_auto_routing_c3_witness :
    storeSecret (defaultSecretResolver skxWorld) skxWorld "openai" "sk-x" "auto" =
      .error "No secret store available (no RPC endpoint and keychain unavailable)" ∧
    storeSecret (defaultSecretResolver skxWorld) skxWorld "openai" "sk-x" "bogus" =
      .error "Unknown store: bogus" := by
  constructor
  · exact store_auto_routing_c3.2.2.1 (defaultSecretResolver skxWorld) skxWorld
      "openai" "sk-x" (Or.inr ⟨rfl, rfl⟩)
  · exact store_auto_routing_c3.2.2.2.2 (defaultSecretResolver skxWorld) skxWorld
      "openai" "sk-x" "bogus" (by decide) (by decide) (by decide) (by decide)

/-! ## Keychain store verification (secrets/keychain_store.rs lines 117-147)

The OS credential daemon is external; one `store` call performs four
daemon interactions whose outcomes are captured in a `KeychainAttempt`:
creating the entry handle used for the write, `set_password`, creating a
fresh verification entry handle (the source insists on a NEW `Entry`
object so a cached handle cannot mask an uncommitted write), and the
`get_password` read-back through that fresh handle. -/

/-- Outcomes of the daemon interactions of one `KeychainSecretStore::store`
call.  Error payloads are the display strings of the underlying keyring
errors. -/
structure KeychainAttempt where
  entryCreate : Except String Unit
  setPassword : Except String Unit
  verifyEntryCreate : Except String Unit
  readBack : Except String String

/-- Embeds `KeychainSecretStore::store`: create the entry, write the
value, then re-read it through a freshly created entry and demand the
round-trip returns the written value. -/
def keychainStoreOp (_key value : String) (a : KeychainAttempt) :
    Except SecretStoreErr Unit :=
  match a.entryCreate with
  | .error e => .error (.other ("Failed to create keychain entry: " ++ e))
  | .ok _ =>
    match a.setPassword with
    | .error e => .error (.other ("Failed to store in keychain: " ++ e))
    | .ok _ =>
      match a.verifyEntryCreate with
      | .error e => .error (.other ("Failed to create keychain entry: " ++ e))
      | .ok _ =>
        match a.readBack with
        | .ok retrieved =>
          if retrieved == value then .ok ()
          else .error (.other "Keychain store verification failed: value mismatch")
        | .error e =>
          .error (.other ("Keychain store verification failed: could not read back: " ++ e))

/-- C7: `store` returns `Ok` only when the read-back through the fresh
verification entry equals the written value; a mismatching read-back
yields the value-mismatch verification error, and a failing read-back
yields the could-not-read-back verification error, never a silent
success. -/
theorem keychain_store_verification_c7 :
    (∀ (key value : String) (a : KeychainAttempt),
      keychainStoreOp key value a = .ok () → a.readBack = .ok value) ∧
    (∀ (key value r : String) (a : KeychainAttempt),
      a.entryCreate = .ok () → a.setPassword = .ok () →
      a.verifyEntryCreate = .ok () → a.readBack = .ok r → r ≠ value →
      keychainStoreOp key value a =
        .error (.other "Keychain store verification failed: value mismatch")) ∧
    (∀ (key value e : String) (a : KeychainAttempt),
      a.entryCreate = .ok () → a.setPassword = .ok () →
      a.verifyEntryCreate = .ok () → a.readBack = .error e →
      keychainStoreOp key value a =
        .error (.other ("Keychain store verification failed: could not read back: " ++ e))) := by
  refine ⟨?_, ?_, ?_⟩
  · intro key value a h
    unfold keychainStoreOp at h
    cases h1 : a.entryCreate with
    | error e => simp [h1] at h
    | ok u =>
      cases h2 : a.setPassword with
      | error e => simp [h1, h2] at h
      | ok u2 =>
        cases h3 : a.verifyEntryCreate with
        | error e => simp [h1, h2, h3] at h
        | ok u3 =>
          cases h4 : a.readBack with
          | error e => simp [h1, h2, h3, h4] at h
          | ok r =>
            simp only [h1, h2, h3, h4] at h
            by_cases hr : r == value
            · simp [h4, eq_of_beq hr]
            · exact absurd h (by simp [hr])
  · intro key value r a h1 h2 h3 h4 hr
    simp [keychainStoreOp, h1, h2, h3, h4, beq_eq_false_iff_ne.mpr hr]
  · intro key value e a h1 h2 h3 h4
    simp [keychainStoreOp, h1, h2, h3, h4]

/-- Witness for C7: a read-back returning different bytes makes `store`
fail with the verification error. -/
theorem keychain_store_verification_c7_witness :
    keychainStoreOp "openai" "sk-new" ⟨.ok (), .ok (), .ok (), .ok "sk-old"⟩ =
      .error (.other "Keychain store verification failed: value mismatch") := by
  exact keychain_store_verification_c7.2.1 "openai" "sk-new" "sk-old"
    ⟨.ok (), .ok (), .ok (), .ok "sk-old"⟩ rfl rfl rfl rfl (by decide)

/-! ## File config provider (config/file.rs)

`FileConfigProvider` state: the on-disk file (`DiskState`), the
per-instance read cache behind the `RwLock`, and whether a write to the
path would succeed.  YAML (de)serialization is abstracted into
`DiskState`: a present file either parses to a `ConfigFile` document or
fails (read error or YAML error); serializing this document never fails. -/

/-- Embeds `ConfigSource` (types/model.rs lines 111-124). -/
inductive ConfigSrc where
  | vsCodeUser : ConfigSrc
  | vsCodeWorkspace : ConfigSrc
  | nativeUser : ConfigSrc
  | nativeWorkspace : ConfigSrc
  | runtime : ConfigSrc
  | unknown : ConfigSrc
deriving DecidableEq, Repr

/-- Embeds `ProviderConfig` (types/model.rs lines 147-162). -/
structure ProviderConfig where
  name : String
  enabled : Bool
  apiBase : Option String
  models : List String
  source : ConfigSrc
deriving DecidableEq, Repr

/-- Embeds `ConfigError` (config/traits.rs lines 29-44). -/
inductive ConfigErr where
  | providerNotFound : String → ConfigErr
  | providerExists : String → ConfigErr
  | io : String → ConfigErr
  | serialization : String → ConfigErr
  | other : String → ConfigErr
deriving DecidableEq, Repr

/-- The display string of a `ConfigError`, per its thiserror attributes. -/
def ConfigErr.toMessage : ConfigErr → String
  | .providerNotFound n => "Provider not found: " ++ n
  | .providerExists n => "Provider already exists: " ++ n
  | .io s => "IO error: " ++ s
  | .serialization s => "Serialization error: " ++ s
  | .other s => "Configuration error: " ++ s

/-- Embeds `DefaultSettings` (config/file.rs lines 28-33). -/
structure DefaultSettings where
  provider : Option String
  model : Option String
deriving DecidableEq, Repr

/-- Embeds `ConfigFile` (config/file.rs lines 16-24). -/
structure ConfigFile where
  providers : List ProviderConfig
  defaults : Option DefaultSettings
deriving DecidableEq, Repr

/-- The config file path on disk, as the provider observes it. -/
inductive DiskState where
  | absent : DiskState
  | readError : String → DiskState
  | unparsable : String → DiskState
  | parsed : ConfigFile → DiskState
deriving DecidableEq, Repr

/-- Embeds `FileConfigProvider::load` (config/file.rs lines 115-125):
an absent file is the default (empty) document; a read failure surfaces
the IO error; a YAML failure surfaces the parse error. -/
def loadConfigFile : DiskState → Except ConfigErr ConfigFile
  | .absent => .ok ⟨[], none⟩
  | .readError e => .error (.io e)
  | .unparsable e => .error (.other ("Failed to parse YAML: " ++ e))
  | .parsed c => .ok c

/-- Embeds `ConfigLevel` (config/file.rs lines 37-42). -/
inductive ConfigLevel where
  | user : ConfigLevel
  | workspace : ConfigLevel
deriving DecidableEq, Repr

/-- One `FileConfigProvider` instance together with its path's disk
state. -/
structure FileState where
  disk : DiskState
  cache : Option ConfigFile
  writeOk : Bool
deriving DecidableEq, Repr

/-- Embeds `FileConfigProvider::exists` (`self.path.exists()`). -/
def fileExists (s : FileState) : Bool :=
  match s.disk with
  | .absent => false
  | _ => true

/-- Embeds `FileConfigProvider::get_config` (config/file.rs lines
147-158): return the cached document, or load from disk and fill the
cache on success. -/
def getConfigOp (s : FileState) : Except ConfigErr ConfigFile × FileState :=
  match s.cache with
  | some c => (.ok c, s)
  | none =>
    match loadConfigFile s.disk with
    | .ok c => (.ok c, { s with cache := some c })
    | .error e => (.error e, s)

/-- Embeds `FileConfigProvider::save` (config/file.rs lines 128-144):
write the serialized document (modelled fallible through `writeOk`, as
`serde_yaml::to_string` of this document cannot fail), then update the
cache. -/
def saveOp (c : ConfigFile) (s : FileState) : Except ConfigErr Unit × FileState :=
  if s.writeOk then (.ok (), { s with disk := .parsed c, cache := some c })
  else (.error (.io "write failed"), s)

/-- The `ConfigSource` stamped by `get_providers` for a level. -/
def levelSource : ConfigLevel → ConfigSrc
  | .user => .nativeUser
  | .workspace => .nativeWorkspace

/-- Embeds `FileConfigProvider::get_providers` (config/file.rs lines
228-244): the document's providers stamped with the level's source, and
the empty list on any load error (`unwrap_or_default`). -/
def getProvidersOp (lvl : ConfigLevel) (s : FileState) :
    List ProviderConfig × FileState :=
  match getConfigOp s with
  | (.ok c, s2) => (c.providers.map (fun p => { p with source := levelSource lvl }), s2)
  | (.error _, s2) => ([], s2)

/-- Embeds `FileConfigProvider::add_provider` (config/file.rs lines
258-268): fail with `ProviderExists` on a case-insensitive name
collision, else append and save. -/
def addProviderOp (config : ProviderConfig) (s : FileState) :
    Except ConfigErr Unit × FileState :=
  match getConfigOp s with
  | (.error e, s2) => (.error e, s2)
  | (.ok fc, s2) =>
    if fc.providers.any (fun p => toLowerStr p.name == toLowerStr config.name) then
      (.error (.providerExists config.name), s2)
    else
      saveOp { fc with providers := fc.providers ++ [config] } s2

/-- Embeds `FileConfigProvider::import_providers` (config/file.rs lines
207-211): replace the provider list of the current document and save. -/
def importProvidersOp (providers : List ProviderConfig) (s : FileState) :
    Except ConfigErr Unit × FileState :=
  match getConfigOp s with
  | (.error e, s2) => (.error e, s2)
  | (.ok fc, s2) => saveOp { fc with providers := providers } s2

/-- C9: on a `FileConfigProvider` whose persisted document contains a
provider whose name equals the new provider's name ignoring case (and
whose cache, when filled, holds that document), `add_provider` fails with
`ProviderExists` and changes neither the disk nor the provider list
observable through `get_providers`. -/
theorem add_provider_exists_c9 :
    ∀ (config : ProviderConfig) (s : FileState) (doc : ConfigFile)
      (lvl : ConfigLevel),
      loadConfigFile s.disk = .ok doc →
      (s.cache = none ∨ s.cache = some doc) →
      doc.providers.any (fun p => toLowerStr p.name == toLowerStr config.name) = true →
      (addProviderOp config s).1 = .error (.providerExists config.name) ∧
      ((addProviderOp config s).2).disk = s.disk ∧
      (getProvidersOp lvl (addProviderOp config s).2).1 =
        (getProvidersOp lvl s).1 := by
  intro config s doc lvl hload hcache hdup
  rcases hcache with hc | hc
  · simp [addProviderOp, getConfigOp, getProvidersOp, hc, hload, hdup]
  · simp [addProviderOp, getConfigOp, getProvidersOp, hc, hdup]

/-- Witness for C9: adding "OpenAI" when "openai" is persisted fails with
`ProviderExists` and leaves the disk unchanged. -/
theorem add_provider_exists_c9_witness :
    (addProviderOp ⟨"OpenAI", true, none, [], .unknown⟩
        ⟨.parsed ⟨[⟨"openai", true, none, ["gpt-4o"], .unknown⟩], none⟩, none, true⟩).1 =
      .error (.providerExists "OpenAI") ∧
    ((addProviderOp ⟨"OpenAI", true, none, [], .unknown⟩
        ⟨.parsed ⟨[⟨"openai", true, none, ["gpt-4o"], .unknown⟩], none⟩, none, true⟩).2).disk =
      .parsed ⟨[⟨"openai", true, none, ["gpt-4o"], .unknown⟩], none⟩ := by
  have h := add_provider_exists_c9 ⟨"OpenAI", true, none, [], .unknown⟩
    ⟨.parsed ⟨[⟨"openai", true, none, ["gpt-4o"], .unknown⟩], none⟩, none, true⟩
    ⟨[⟨"openai", true, none, ["gpt-4o"], .unknown⟩], none⟩ .user rfl (Or.inl rfl) (by decide)
  exact ⟨h.1, h.2.1⟩

/-- C10: with an unfilled cache, `get_providers` returns the empty list
when the file is absent, and also when the file exists but cannot be read
or cannot be parsed as YAML — a corrupt or unreadable file is
indistinguishable from an empty one at this interface. -/
theorem get_providers_silent_empty_c10 :
    ∀ (s : FileState) (lvl : ConfigLevel),
      s.cache = none →
      (s.disk = .absent → (getProvidersOp lvl s).1 = []) ∧
      (∀ e, s.disk = .readError e → (getProvidersOp lvl s).1 = []) ∧
      (∀ e, s.disk = .unparsable e → (getProvidersOp lvl s).1 = []) := by
  intro s lvl hc
  refine ⟨?_, ?_, ?_⟩
  · intro hd
    simp [getProvidersOp, getConfigOp, hc, hd, loadConfigFile]
  · intro e hd
    simp [getProvidersOp, getConfigOp, hc, hd, loadConfigFile]
  · intro e hd
    simp [getProvidersOp, getConfigOp, hc, hd, loadConfigFile]

/-- Witness for C10: an unparsable file reads back as no providers. -/
theorem get_providers_silent_empty_c10_witness :
    (getProvidersOp .user ⟨.unparsable "bad yaml", none, true⟩).1 = [] := by
  exact (get_providers_silent_empty_c10 ⟨.unparsable "bad yaml", none, true⟩
    .user rfl).2.2 "bad yaml" rfl

/-! ## Config resolver (resolver/config_resolver.rs)

The process-wide pieces visible to `UnifiedConfigResolver` form a
`ConfigWorld`: the global provider cache (`GLOBAL_PROVIDERS`), the
user-level and workspace-level YAML files with their display paths, and
the global RPC endpoint registry.  The cache is an association list from
lowercased provider name to `ResolvedProvider`, modelling the `HashMap`
(whose iteration order is unspecified, so only the entries matter). -/

/-- Embeds `ResolvedProvider` (config_resolver.rs lines 41-54). -/
structure ResolvedProvider where
  name : String
  enabled : Bool
  apiBase : Option String
  models : List String
  source : String
  sourceDetail : String
deriving DecidableEq, Repr

/-- Embeds `ConfigSourcePreference` (config_resolver.rs lines 59-64). -/
inductive ConfigSourcePref where
  | native : ConfigSourcePref
  | vsCode : ConfigSourcePref
deriving DecidableEq, Repr

/-- Behavioural model of a registered RPC endpoint as seen through
`RpcConfigProvider`: the outcome of `set_provider` per
(name, scope, enabled, models, api_base) argument tuple, rendered to its
display string as the resolver does. -/
structure ConfigEndpointM where
  setProviderOutcome :
    String → String → Bool → List String → Option String → Except String Unit

/-- The world a `UnifiedConfigResolver` operates in. -/
structure ConfigWorld where
  cache : List (String × ResolvedProvider)
  userDisk : DiskState
  userWriteOk : Bool
  userPath : String
  wsDisk : DiskState
  wsWriteOk : Bool
  wsPath : String
  registry : String → Option ConfigEndpointM

/-- Embeds the state of `UnifiedConfigResolver` (fields `workspace_path`,
`rpc_endpoints`, `config_source`; the providers live in the global
cache, not the instance). -/
structure ConfigResolverM where
  workspacePath : Option String
  rpcEndpoints : List String
  configSource : ConfigSourcePref

/-- Embeds `HashMap::insert` on the global provider cache: replace the
entry with the same key, or add one. -/
def insertCache (cache : List (String × ResolvedProvider)) (k : String)
    (v : ResolvedProvider) : List (String × ResolvedProvider) :=
  (k, v) :: cache.filter (fun kv => kv.1 != k)

/-- Embeds `UnifiedConfigResolver::get_all_providers` (lines 359-376): a
pure read of the global cache, independent of the resolver instance. -/
def getAllProviders (w : ConfigWorld) : List ResolvedProvider :=
  w.cache.map (fun kv => kv.2)

/-- Embeds `UnifiedConfigResolver::compute_source_detail` (lines
704-717). -/
def computeSourceDetail (r : ConfigResolverM) (scope : String) : String :=
  match r.configSource with
  | .vsCode =>
    "vscode " ++ (if scope == "user" then "User" else "Workspace") ++ " Settings"
  | .native =>
    if scope == "workspace" then ".config/openllm/config.yaml"
    else "~/.config/openllm/config.yaml"

/-- The provider record written into the cache by `save_provider` step 1
(lines 601-612): the caller's data fields with recomputed source
metadata. -/
def providerWithSource (r : ConfigResolverM) (scope : String)
    (p : ResolvedProvider) : ResolvedProvider :=
  { name := p.name
    enabled := p.enabled
    apiBase := p.apiBase
    models := p.models
    source :=
      (match r.configSource with
       | .vsCode => "rpc:vscode"
       | .native => "native") ++ ":" ++ scope
    sourceDetail := computeSourceDetail r scope }

/-- Embeds `WriteDestination` (config_resolver.rs lines 846-851). -/
inductive WriteDest where
  | rpc : String → String → WriteDest
  | native : String → WriteDest
deriving DecidableEq, Repr

/-- Embeds `UnifiedConfigResolver::get_write_destination` (lines
567-587): native preference always writes natively; VS Code preference
writes to the first registered endpoint, falling back to native when
none is registered. -/
def getConfigWriteDestination (r : ConfigResolverM) (w : ConfigWorld)
    (scope : String) : WriteDest :=
  match r.configSource with
  | .native => .native scope
  | .vsCode =>
    match r.rpcEndpoints.find? (fun n => (w.registry n).isSome) with
    | some n => .rpc n scope
    | none => .native scope

/-- Step 1 of `save_provider` (lines 600-624): insert the provider under
its lowercased name into the global cache, before any persistence. -/
def cacheWriteStep (r : ConfigResolverM) (p : ResolvedProvider)
    (scope : String) (w : ConfigWorld) : ConfigWorld :=
  { w with cache := insertCache w.cache (toLowerStr p.name) (providerWithSource r scope p) }

/-- The native-file persistence of `save_provider` (lines 662-699) on one
scope's file: read the file's current providers (empty when the file does
not exist), update or append the saved provider, and write the merged
list back through `import_providers`.  The `FileConfigProvider` instance
is freshly constructed per call, so its read cache starts empty. -/
def savePersistNativeFile (p : ResolvedProvider) (scope : String)
    (lvl : ConfigLevel) (disk : DiskState) (writeOk : Bool) (path : String) :
    Except String String × DiskState :=
  let fs0 : FileState := ⟨disk, none, writeOk⟩
  let pair := if fileExists fs0 then getProvidersOp lvl fs0 else ([], fs0)
  let cfg : ProviderConfig :=
    ⟨p.name, p.enabled, p.apiBase, p.models,
      if scope == "workspace" then .nativeWorkspace else .nativeUser⟩
  let newList :=
    match pair.1.findIdx? (fun q => eqIgnoreAsciiCase q.name p.name) with
    | some i => pair.1.set i cfg
    | none => pair.1 ++ [cfg]
  match importProvidersOp newList pair.2 with
  | (.ok _, fs2) => (.ok path, fs2.disk)
  | (.error e, fs2) => (.error ("Failed to write config: " ++ e.toMessage), fs2.disk)

/-- Step 2 of `save_provider` (lines 626-700): persist to the routed
destination.  The global cache is not touched by this step. -/
def persistProvider (r : ConfigResolverM) (p : ResolvedProvider)
    (scope : String) (w : ConfigWorld) : Except String String × ConfigWorld :=
  match getConfigWriteDestination r w scope with
  | .rpc n scope2 =>
    match w.registry n with
    | some em =>
      match em.setProviderOutcome p.name scope2 p.enabled p.models p.apiBase with
      | .ok _ =>
        (.ok (n ++ " " ++ (if scope2 == "user" then "User" else "Workspace") ++ " Settings"), w)
      | .error e => (.error ("RPC write failed: " ++ e), w)
    | none => (.error ("RPC endpoint " ++ sq ++ n ++ sq ++ " not found"), w)
  | .native scope2 =>
    if scope2 == "workspace" then
      match r.workspacePath with
      | none => (.error "No workspace path set for workspace-level config", w)
      | some _ =>
        let res := savePersistNativeFile p scope2 .workspace w.wsDisk w.wsWriteOk w.wsPath
        (res.1, { w with wsDisk := res.2 })
    else
      let res := savePersistNativeFile p scope2 .user w.userDisk w.userWriteOk w.userPath
      (res.1, { w with userDisk := res.2 })

/-- Embeds `UnifiedConfigResolver::save_provider` (lines 595-701):
update the global cache first, then persist. -/
def saveProvider (r : ConfigResolverM) (p : ResolvedProvider)
    (scope : String) (w : ConfigWorld) : Except String String × ConfigWorld :=
  persistProvider r p scope (cacheWriteStep r p scope w)

/-- Embeds `UnifiedConfigResolver::get_provider` (lines 398-401). -/
def getProviderRes (w : ConfigWorld) (name : String) : Option ResolvedProvider :=
  (getAllProviders w).find? (fun p => eqIgnoreAsciiCase p.name name)

/-- Embeds `UnifiedConfigResolver::update_provider_models` (lines
720-739). -/
def updateProviderModels (r : ConfigResolverM) (name : String)
    (models : List String) (scope : String) (w : ConfigWorld) :
    Except String String × ConfigWorld :=
  let existing := getProviderRes w name
  let p : ResolvedProvider :=
    ⟨name, ((existing.map (fun q => q.enabled)).getD true),
      (existing.bind (fun q => q.apiBase)), models, "", ""⟩
  saveProvider r p scope w

/-- Embeds `UnifiedConfigResolver::toggle_provider` (lines 742-769). -/
def toggleProvider (r : ConfigResolverM) (name : String) (enabled : Bool)
    (scope : String) (w : ConfigWorld) : Except String String × ConfigWorld :=
  let existing := getProviderRes w name
  let p : ResolvedProvider :=
    ⟨name, enabled, (existing.bind (fun q => q.apiBase)),
      ((existing.map (fun q => q.models)).getD []), "", ""⟩
  saveProvider r p scope w

/-- The native-file persistence of `remove_provider` (lines 799-821):
"Already removed" when the file does not exist, otherwise rewrite the
file without the named provider. -/
def removeNativeFile (name : String) (lvl : ConfigLevel) (disk : DiskState)
    (writeOk : Bool) (path : String) : Except String String × DiskState :=
  let fs0 : FileState := ⟨disk, none, writeOk⟩
  if fileExists fs0 then
    let pair := getProvidersOp lvl fs0
    let retained := pair.1.filter (fun p => !(eqIgnoreAsciiCase p.name name))
    match importProvidersOp retained pair.2 with
    | (.ok _, fs2) => (.ok path, fs2.disk)
    | (.error e, fs2) => (.error ("Failed to write config: " ++ e.toMessage), fs2.disk)
  else
    (.ok "Already removed", fs0.disk)

/-- Embeds `UnifiedConfigResolver::remove_provider` (lines 772-822).
Note that unlike `save_provider` there is no cache-update step: the
function goes straight to the write destination. -/
def removeProvider (r : ConfigResolverM) (name : String) (scope : String)
    (w : ConfigWorld) : Except String String × ConfigWorld :=
  match getConfigWriteDestination r w scope with
  | .rpc n scope2 =>
    match w.registry n with
    | some em =>
      match em.setProviderOutcome name scope2 false [] none with
      | .ok _ =>
        (.ok (n ++ " " ++ (if scope2 == "user" then "User" else "Workspace") ++ " Settings"), w)
      | .error e => (.error ("RPC remove failed: " ++ e), w)
    | none => (.error ("RPC endpoint " ++ sq ++ n ++ sq ++ " not found"), w)
  | .native scope2 =>
    if scope2 == "workspace" then
      match r.workspacePath with
      | none => (.error "No workspace path set", w)
      | some _ =>
        let res := removeNativeFile name .workspace w.wsDisk w.wsWriteOk w.wsPath
        (res.1, { w with wsDisk := res.2 })
    else
      let res := removeNativeFile name .user w.userDisk w.userWriteOk w.userPath
      (res.1, { w with userDisk := res.2 })

theorem persistProvider_cache_unchanged (r : ConfigResolverM)
    (p : ResolvedProvider) (scope : String) (w : ConfigWorld) :
    ((persistProvider r p scope w).2).cache = w.cache := by
  unfold persistProvider
  split
  · split
    · split <;> rfl
    · rfl
  · split
    · split <;> rfl
    · rfl

/-- C1: `save_provider` inserts the provider (keyed by the lowercase of
its name, with recomputed source metadata but unchanged data fields)
into the global cache before the persistence step, the persistence step
never changes the cache whatever its outcome, and whenever
`save_provider` returns `Ok` the saved record is in the provider list
that a subsequent `get_all_providers` (on any resolver instance: the
read only touches the shared world) returns. -/
theorem save_provider_cache_first_c1 :
    (∀ (r : ConfigResolverM) (p : ResolvedProvider) (scope : String) (w : ConfigWorld),
      saveProvider r p scope w = persistProvider r p scope (cacheWriteStep r p scope w)) ∧
    (∀ (r : ConfigResolverM) (p : ResolvedProvider) (scope : String) (w : ConfigWorld),
      ((persistProvider r p scope w).2).cache = w.cache) ∧
    (∀ (r : ConfigResolverM) (p : ResolvedProvider) (scope : String) (w : ConfigWorld),
      ((saveProvider r p scope w).2).cache =
        insertCache w.cache (toLowerStr p.name) (providerWithSource r scope p)) ∧
    (∀ (r : ConfigResolverM) (p : ResolvedProvider) (scope : String),
      (providerWithSource r scope p).name = p.name ∧
      (providerWithSource r scope p).enabled = p.enabled ∧
      (providerWithSource r scope p).apiBase = p.apiBase ∧
      (providerWithSource r scope p).models = p.models) ∧
    (∀ (r : ConfigResolverM) (p : ResolvedProvider) (scope msg : String) (w : ConfigWorld),
      (saveProvider r p scope w).1 = .ok msg →
      providerWithSource r scope p ∈ getAllProviders (saveProvider r p scope w).2) := by
  refine ⟨fun _ _ _ _ => rfl, persistProvider_cache_unchanged, ?_, ?_, ?_⟩
  · intro r p scope w
    rw [saveProvider, persistProvider_cache_unchanged]
    rfl
  · intro r p scope
    exact ⟨rfl, rfl, rfl, rfl⟩
  · intro r p scope msg w _
    have hc : ((saveProvider r p scope w).2).cache =
        insertCache w.cache (toLowerStr p.name) (providerWithSource r scope p) := by
      rw [saveProvider, persistProvider_cache_unchanged]
      rfl
    unfold getAllProviders
    rw [hc]
    exact List.mem_map.mpr ⟨(toLowerStr p.name, providerWithSource r scope p),
      List.mem_cons_self _ _, rfl⟩

/-- The world of the C1 witness and the C2 failing input: the cache
holds "openai", both config files are absent and writable, no RPC
endpoint is registered, and the resolver is a plain native-preference
instance without a workspace. -/
def c2Provider : ResolvedProvider :=
  ⟨"openai", true, none, ["gpt-4o"], "native:user", "~/.config/openllm/config.yaml"⟩

def c2World : ConfigWorld :=
  { cache := [("openai", c2Provider)]
    userDisk := .absent
    userWriteOk := true
    userPath := "/home/user/.config/openllm/config.yaml"
    wsDisk := .absent
    wsWriteOk := true
    wsPath := ".config/openllm/config.yaml"
    registry := fun _ => none }

def c2Resolver : ConfigResolverM := ⟨none, ["vscode"], .native⟩

/-- Witness for C1: a native-scope save that persists successfully leaves
the saved provider visible through `get_all_providers`. -/
theorem save_provider_cache_first_c1_witness :
    providerWithSource c2Resolver "user"
        ⟨"anthropic", true, none, ["claude-opus-4"], "", ""⟩ ∈
      getAllProviders (saveProvider c2Resolver
        ⟨"anthropic", true, none, ["claude-opus-4"], "", ""⟩ "user" c2World).2 := by
  exact save_provider_cache_first_c1.2.2.2.2 c2Resolver
    ⟨"anthropic", true, none, ["claude-opus-4"], "", ""⟩ "user"
    "/home/user/.config/openllm/config.yaml" c2World rfl

/-- C2 (failing input): with the global cache holding "openai" and no
config file on disk, `remove_provider("openai", "user")` returns `Ok`
("Already removed") yet leaves the global cache untouched, so a
subsequent `get_all_providers()` still includes a provider named
"openai" - the cache is not mutated by this write operation, contrary to
the spec and to the module's own documentation. -/
theorem remove_provider_stale_cache_c2 :
    (removeProvider c2Resolver "openai" "user" c2World).1 = .ok "Already removed" ∧
    ((removeProvider c2Resolver "openai" "user" c2World).2).cache = c2World.cache ∧
    (getAllProviders (removeProvider c2Resolver "openai" "user" c2World).2).any
      (fun p => p.name == "openai") = true := by
  exact ⟨rfl, rfl, by decide⟩

end OpenLLM
